import Mathlib

/-!
Verification of the public API layer (`src/fitch-proof/src/lib.rs`) of the
fitch-proof checker.  The submodules of the library (`parser`, `checker`, `data`,
`formatter`, `fix_line_numbers`, `export_to_latex`, `util`) are not among the
given sources; `lib.rs` is parametric in their behaviour, so they are embedded
as an abstract interface (`Modules`), with the data types and the natural-sort
utility modelled from the spec where the claims need them concretely.
-/

namespace FitchProof

/-- Modelled from the spec: the `Formula`/`Wff` tree (`data.rs` is not among
the given sources).  Variants as in the spec data model: atoms with a
predicate name and argument terms, the propositional connectives, the two
quantifiers and falsum. -/
inductive Wff where
  | Atom : String → List String → Wff
  | Not : Wff → Wff
  | And : Wff → Wff → Wff
  | Or : Wff → Wff → Wff
  | Implies : Wff → Wff → Wff
  | Iff : Wff → Wff → Wff
  | Forall : String → Wff → Wff
  | Exists : String → Wff → Wff
  | Bottom : Wff
deriving Repr, DecidableEq

/-- Modelled from the spec: a cited target of a justification is a single
line reference or a line-range reference (`data.rs` is not among the given
sources). -/
inductive CitedTarget where
  | line : Int → CitedTarget
  | range : Int → Int → CitedTarget
deriving Repr, DecidableEq

/-- Modelled from the spec: a justification is `Premise`, `Assumption`, or a
named rule with ordered cited targets (`data.rs` is not among the given
sources). -/
inductive Justification where
  | Premise : Justification
  | Assumption : Justification
  | Rule : String → List CitedTarget → Justification
deriving Repr, DecidableEq

/-- Modelled from the spec: a proof line carries the displayed line number,
the 1-based real line number, the formula, the justification and the box
nesting depth (`data.rs` is not among the given sources). -/
structure ProofLine where
  displayed_line_number : Int
  real_line_number : Int
  formula : Wff
  justification : Justification
  depth : Nat
deriving Repr, DecidableEq

/-- Modelled from the spec: a check diagnostic with the real (textual) line,
the optional author-visible Fitch line, and the message (`data.rs` is not
among the given sources). -/
structure CheckError where
  real_line : Int
  fitch_line : Option Int
  err_txt : String
deriving Repr, DecidableEq

/-- Modelled from the spec: the result of checking a proof — `Correct`, a
list of per-line diagnostics, or a fatal (structural) error (`data.rs` is not
among the given sources). -/
inductive ProofResult where
  | Correct : ProofResult
  | Error : List CheckError → ProofResult
  | FatalError : String → ProofResult
deriving Repr, DecidableEq

/-- Modelled from the spec: the interface of the library submodules used by
`lib.rs` (their sources are not given).  `lib.rs` only forwards to these, so
every claim about `lib.rs` is proved for an arbitrary instance of this
interface. -/
structure Modules where
  parse_fitch_proof : String → Except String (List ProofLine)
  parse_allowed_variable_names : String → Except String (List String)
  parse_logical_expression_string : String → Option Wff
  checker_check_proof : List ProofLine → List String → ProofResult
  checker_check_proof_with_template :
    List ProofLine → List Wff → List String → ProofResult
  formatter_format_proof : List ProofLine → String
  fix_line_numbers : List ProofLine → List ProofLine
  proof_to_latex : List ProofLine → String

/-! ### Natural sort, modelled from the spec (`util.rs` is not given) -/

/-- A chunk of a string for natural comparison: a maximal run of non-digit
characters, or a maximal run of digits (kept as the digit characters). -/
inductive Chunk where
  | str : List Char → Chunk
  | num : List Char → Chunk
deriving Repr, DecidableEq

/-- Prepend one character to a chunk decomposition, merging it into the first
chunk when it is of the same kind. -/
def pushChar (c : Char) : List Chunk → List Chunk
  | Chunk.num ds :: rest =>
    if c.isDigit then Chunk.num (c :: ds) :: rest
    else Chunk.str [c] :: Chunk.num ds :: rest
  | Chunk.str s :: rest =>
    if c.isDigit then Chunk.num [c] :: Chunk.str s :: rest
    else Chunk.str (c :: s) :: rest
  | [] => if c.isDigit then [Chunk.num [c]] else [Chunk.str [c]]

/-- Decompose a character list into maximal digit / non-digit chunks. -/
def chunksOf (cs : List Char) : List Chunk := cs.foldr pushChar []

/-- Numeric value of a digit run (most significant digit first). -/
def digitsToNat (ds : List Char) : Nat :=
  ds.foldl (fun a c => a * 10 + (c.toNat - 48)) 0

/-- Plain lexicographic comparison of character lists. -/
def cmpChars : List Char → List Char → Ordering
  | [], [] => .eq
  | [], _ :: _ => .lt
  | _ :: _, [] => .gt
  | a :: as, b :: bs =>
    match compare a b with
    | .eq => cmpChars as bs
    | o => o

/-- Compare two chunk decompositions: digit runs by numeric value, other runs
lexicographically; a digit run sorts before a non-digit run. -/
def cmpChunks : List Chunk → List Chunk → Ordering
  | [], [] => .eq
  | [], _ :: _ => .lt
  | _ :: _, [] => .gt
  | Chunk.num a :: as, Chunk.num b :: bs =>
    match compare (digitsToNat a) (digitsToNat b) with
    | .eq => cmpChunks as bs
    | o => o
  | Chunk.num _ :: _, Chunk.str _ :: _ => .lt
  | Chunk.str _ :: _, Chunk.num _ :: _ => .gt
  | Chunk.str a :: as, Chunk.str b :: bs =>
    match cmpChars a b with
    | .eq => cmpChunks as bs
    | o => o

/-- Modelled from the spec: natural comparison of strings — embedded numerals
are compared by numeric value rather than character code. -/
def naturalCompare (a b : String) : Ordering :=
  cmpChunks (chunksOf a.data) (chunksOf b.data)

/-- `a` is at most `b` in natural order. -/
def naturalLe (a b : String) : Bool :=
  match naturalCompare a b with
  | .gt => false
  | _ => true

/-- Insert into a list sorted by `naturalLe`. -/
def insertNatural (x : String) : List String → List String
  | [] => [x]
  | y :: ys => if naturalLe x y then x :: y :: ys else y :: insertNatural x ys

/-- Modelled from the spec: `util::natural_sort` — sorts rendered messages by
the numeric-aware natural comparison (`util.rs` is not among the given
sources). -/
def natural_sort (l : List String) : List String :=
  l.foldr insertNatural []

/-- Join a list of strings with the given separator between consecutive
entries (the `join` of the Rust standard library). -/
def join_with (sep : String) : List String → String
  | [] => ""
  | [x] => x
  | x :: y :: ys => x ++ sep ++ join_with sep (y :: ys)

/-! ### The embedded `lib.rs` -/

/-- The default allowed variable names (the `default_variable_names!` macro
in `lib.rs`). -/
def default_variable_names : String := "x,y,z,u,v,w"

/-- The rendering closure inside `extract_errors` in `lib.rs`: the message
alone when there is no Fitch line, else prefixed with the Fitch line. -/
def render_entry (x : CheckError) : String :=
  match x.fitch_line with
  | none => x.err_txt
  | some n => "Line " ++ toString n ++ ": " ++ x.err_txt

/-- The rendering closure inside `extract_errors_full` in `lib.rs`: messages
with a Fitch line also carry the real line. -/
def render_entry_full (x : CheckError) : String :=
  match x.fitch_line with
  | none => x.err_txt
  | some n =>
    "Line " ++ toString x.real_line ++ ": (Fitch line " ++ toString n
      ++ ") " ++ x.err_txt

/-- `extract_errors` from `lib.rs`: render each diagnostic, natural-sort, and
join with a blank line in between. -/
def extract_errors (errs : List CheckError) : String :=
  join_with "\n\n" (natural_sort (errs.map render_entry))

/-- `extract_errors_full` from `lib.rs`: like `extract_errors` but rendering
with `render_entry_full`. -/
def extract_errors_full (errs : List CheckError) : String :=
  join_with "\n\n" (natural_sort (errs.map render_entry_full))

/-- `check_proof_to_proofresult` from `lib.rs`: parse the proof and the
allowed variable names; on success run the checker, otherwise return the
(first) parse error as a `FatalError`. -/
def check_proof_to_proofresult (M : Modules)
    (proof allowed_variable_names : String) : ProofResult :=
  match M.parse_fitch_proof proof,
        M.parse_allowed_variable_names allowed_variable_names with
  | .ok proof_lines, .ok variable_names =>
    M.checker_check_proof proof_lines variable_names
  | .error err, _ => ProofResult.FatalError err
  | _, .error err => ProofResult.FatalError err

/-- The fatal message `lib.rs` produces when a template sentence fails to
parse. -/
def template_parse_error_message : String :=
  "Some sentences in the template file could not be parsed. If you see this as a student on Themis, please contact the course staff as soon as possible; something is wrong on our side. Thanks!"

/-- `check_proof_to_proofresult_with_template` from `lib.rs`: as
`check_proof_to_proofresult`, but additionally parse every template sentence;
if any fails to parse, return the fixed `FatalError`, otherwise run the
template-aware checker. -/
def check_proof_to_proofresult_with_template (M : Modules) (proof : String)
    (template : List String) (allowed_variable_names : String) : ProofResult :=
  match M.parse_fitch_proof proof,
        M.parse_allowed_variable_names allowed_variable_names with
  | .ok proof_lines, .ok variable_names =>
    let template_wffs : List Wff :=
      template.filterMap M.parse_logical_expression_string
    if template_wffs.length ≠ template.length then
      ProofResult.FatalError template_parse_error_message
    else
      M.checker_check_proof_with_template proof_lines template_wffs
        variable_names
  | .error err, _ => ProofResult.FatalError err
  | _, .error err => ProofResult.FatalError err

/-- `check_proof` from `lib.rs`: the string rendering of
`check_proof_to_proofresult`. -/
def check_proof (M : Modules) (proof allowed_variable_names : String) :
    String :=
  match check_proof_to_proofresult M proof allowed_variable_names with
  | ProofResult.Correct => "The proof is correct!"
  | ProofResult.Error errs => extract_errors errs
  | ProofResult.FatalError err => "Fatal error: " ++ err

/-- `check_proof_full` from `lib.rs`: like `check_proof` but rendering errors
with `extract_errors_full`. -/
def check_proof_full (M : Modules) (proof allowed_variable_names : String) :
    String :=
  match check_proof_to_proofresult M proof allowed_variable_names with
  | ProofResult.Correct => "The proof is correct!"
  | ProofResult.Error errs => extract_errors_full errs
  | ProofResult.FatalError err => "Fatal error: " ++ err

/-- `check_proof_with_template` from `lib.rs`: the string rendering of
`check_proof_to_proofresult_with_template`. -/
def check_proof_with_template (M : Modules) (proof : String)
    (template : List String) (allowed_variable_names : String) : String :=
  match check_proof_to_proofresult_with_template M proof template
        allowed_variable_names with
  | ProofResult.Correct => "The proof is correct!"
  | ProofResult.Error errs => extract_errors errs
  | ProofResult.FatalError err => "Fatal error: " ++ err

/-- `proof_is_correct` from `lib.rs`: check with the default variable names
and test for `Correct`. -/
def proof_is_correct (M : Modules) (proof : String) : Bool :=
  match check_proof_to_proofresult M proof default_variable_names with
  | ProofResult.Correct => true
  | _ => false

/-- `format_proof` from `lib.rs`: reformat a parseable, non-empty proof,
otherwise return the input unchanged. -/
def format_proof (M : Modules) (proof : String) : String :=
  match M.parse_fitch_proof proof with
  | .ok lines => if lines.isEmpty then proof else M.formatter_format_proof lines
  | .error _ => proof

/-- `fix_line_numbers_in_proof` from `lib.rs`: renumber and reformat a
parseable, non-empty proof, otherwise return the input unchanged. -/
def fix_line_numbers_in_proof (M : Modules) (proof : String) : String :=
  match M.parse_fitch_proof proof with
  | .ok lines =>
    if lines.isEmpty then proof
    else M.formatter_format_proof (M.fix_line_numbers lines)
  | .error _ => proof

/-- The fixed failure message of `export_to_latex` in `lib.rs`. -/
def latex_failure_message : String :=
  "Failed to export to latex, because the proof could not be parsed or was empty."

/-- `export_to_latex` from `lib.rs`: serialize a parseable, non-empty proof
to LaTeX, otherwise return the fixed failure message. -/
def export_to_latex (M : Modules) (proof : String) : String :=
  match M.parse_fitch_proof proof with
  | .ok lines =>
    if lines.isEmpty then latex_failure_message else M.proof_to_latex lines
  | .error _ => latex_failure_message

/-! ### Concrete module instances used by witnesses -/

/-- A concrete instance of the module interface whose parsers return the
given constants; used to instantiate the parametric theorems on concrete
inputs. -/
def testModules (pf : Except String (List ProofLine))
    (pv : Except String (List String)) (pe : Option Wff) : Modules where
  parse_fitch_proof := fun _ => pf
  parse_allowed_variable_names := fun _ => pv
  parse_logical_expression_string := fun _ => pe
  checker_check_proof := fun _ _ => ProofResult.Correct
  checker_check_proof_with_template := fun _ _ _ => ProofResult.Correct
  formatter_format_proof := fun _ => "F"
  fix_line_numbers := id
  proof_to_latex := fun _ => "L"

/-- A sample proof line, for concrete instantiations. -/
def sampleLine : ProofLine :=
  { displayed_line_number := 1
    real_line_number := 1
    formula := Wff.Atom "P" []
    justification := Justification.Premise
    depth := 0 }

/-! ### Helper lemmas -/

theorem length_filterMap_lt_of_mem_none {α β : Type} (f : α → Option β)
    {l : List α} {t : α} (ht : t ∈ l) (hf : f t = none) :
    (l.filterMap f).length < l.length := by
  induction l with
  | nil => cases ht
  | cons a l ih =>
    rcases List.mem_cons.mp ht with h | h
    · subst h
      rw [List.filterMap_cons_none hf]
      exact Nat.lt_succ_of_le (List.length_filterMap_le f l)
    · cases hfa : f a with
      | none =>
        rw [List.filterMap_cons_none hfa]
        exact Nat.lt_succ_of_lt (ih h)
      | some b =>
        rw [List.filterMap_cons_some hfa]
        simpa using Nat.succ_lt_succ (ih h)

/-! ### Claim theorems -/

/-- C1: if the proof and the allowed variable names both parse but some
template sentence fails to parse as a logical expression, then
`check_proof_to_proofresult_with_template` returns the fixed `FatalError`
(never `Correct` or `Error`). -/
theorem template_unparseable_entry_fatal (M : Modules) (p v t : String)
    (tmpl : List String) (pl : List ProofLine) (vn : List String)
    (hp : M.parse_fitch_proof p = .ok pl)
    (hv : M.parse_allowed_variable_names v = .ok vn)
    (ht : t ∈ tmpl)
    (hfail : M.parse_logical_expression_string t = none) :
    check_proof_to_proofresult_with_template M p tmpl v
      = ProofResult.FatalError template_parse_error_message := by
  have hlen : (tmpl.filterMap M.parse_logical_expression_string).length
      ≠ tmpl.length :=
    Nat.ne_of_lt
      (length_filterMap_lt_of_mem_none M.parse_logical_expression_string ht
        hfail)
  simp [check_proof_to_proofresult_with_template, hp, hv, hlen]

/-- C1 witness. -/
theorem template_unparseable_entry_fatal_witness :
    check_proof_to_proofresult_with_template
        (testModules (.ok [sampleLine]) (.ok ["x"]) none) "p" ["A"] "x"
      = ProofResult.FatalError template_parse_error_message :=
  template_unparseable_entry_fatal
    (testModules (.ok [sampleLine]) (.ok ["x"]) none) "p" "x" "A" ["A"]
    [sampleLine] ["x"] rfl rfl (List.mem_singleton.mpr rfl) rfl

/-- C2: if the proof text or the allowed-variable-names string fails to
parse, both entry points return `FatalError` carrying the parse error
message; the checker is only invoked when both parses succeed. -/
theorem parse_failure_fatal (M : Modules) (p v : String)
    (tmpl : List String) :
    (∀ e, M.parse_fitch_proof p = .error e →
      check_proof_to_proofresult M p v = ProofResult.FatalError e ∧
      check_proof_to_proofresult_with_template M p tmpl v
        = ProofResult.FatalError e) ∧
    (∀ pl e, M.parse_fitch_proof p = .ok pl →
      M.parse_allowed_variable_names v = .error e →
      check_proof_to_proofresult M p v = ProofResult.FatalError e ∧
      check_proof_to_proofresult_with_template M p tmpl v
        = ProofResult.FatalError e) ∧
    (∀ pl vn, M.parse_fitch_proof p = .ok pl →
      M.parse_allowed_variable_names v = .ok vn →
      check_proof_to_proofresult M p v = M.checker_check_proof pl vn) := by
  refine ⟨fun e he => ?_, fun pl e hp hv => ?_, fun pl vn hp hv => ?_⟩
  · constructor
    · simp [check_proof_to_proofresult, he]
    · simp [check_proof_to_proofresult_with_template, he]
  · constructor
    · simp [check_proof_to_proofresult, hp, hv]
    · simp [check_proof_to_proofresult_with_template, hp, hv]
  · simp [check_proof_to_proofresult, hp, hv]

/-- C2 witness. -/
theorem parse_failure_fatal_witness :
    check_proof_to_proofresult (testModules (.error "bad") (.ok []) none)
        "p" "v" = ProofResult.FatalError "bad" :=
  ((parse_failure_fatal (testModules (.error "bad") (.ok []) none)
      "p" "v" []).1 "bad" rfl).1

/-- C3: `proof_is_correct` is true exactly when the full check with the
default variable names `"x,y,z,u,v,w"` is `Correct`, and false on both
`Error` and `FatalError`. -/
theorem proof_is_correct_iff_correct (M : Modules) (p : String) :
    (proof_is_correct M p = true ↔
      check_proof_to_proofresult M p "x,y,z,u,v,w" = ProofResult.Correct) ∧
    (∀ errs, check_proof_to_proofresult M p "x,y,z,u,v,w"
        = ProofResult.Error errs → proof_is_correct M p = false) ∧
    (∀ e, check_proof_to_proofresult M p "x,y,z,u,v,w"
        = ProofResult.FatalError e → proof_is_correct M p = false) := by
  have hd : default_variable_names = "x,y,z,u,v,w" := rfl
  refine ⟨⟨fun h => ?_, fun h => ?_⟩, fun errs h => ?_, fun e h => ?_⟩
  · by_contra hne
    unfold proof_is_correct at h
    rw [hd] at h
    cases hres : check_proof_to_proofresult M p "x,y,z,u,v,w" with
    | Correct => exact hne hres
    | Error errs => rw [hres] at h; simp at h
    | FatalError e => rw [hres] at h; simp at h
  · unfold proof_is_correct
    rw [hd, h]
  · unfold proof_is_correct
    rw [hd, h]
  · unfold proof_is_correct
    rw [hd, h]

/-- C3 witness. -/
theorem proof_is_correct_iff_correct_witness :
    proof_is_correct (testModules (.ok [sampleLine]) (.ok ["x"]) none) "p"
      = true :=
  (proof_is_correct_iff_correct
      (testModules (.ok [sampleLine]) (.ok ["x"]) none) "p").1.mpr rfl

/-- C6: checking is deterministic — two invocations of
`check_proof_to_proofresult` on the same inputs give the same result, for
every behaviour of the underlying modules (the embedding is a pure function
of the input, with no hidden state). -/
theorem check_proof_to_proofresult_deterministic (M : Modules)
    (p v : String) :
    check_proof_to_proofresult M p v = check_proof_to_proofresult M p v :=
  rfl

/-- C7: the entry points are total functions — they return a value on every
input (the embedding assigns a result to all inputs; no input aborts). -/
theorem entry_points_total (M : Modules) (p v : String)
    (tmpl : List String) :
    (∃ s, check_proof M p v = s) ∧
    (∃ s, check_proof_with_template M p tmpl v = s) ∧
    (∃ b, proof_is_correct M p = b) :=
  ⟨⟨check_proof M p v, rfl⟩,
   ⟨check_proof_with_template M p tmpl v, rfl⟩,
   ⟨proof_is_correct M p, rfl⟩⟩

/-- C8: the string-returning entry points render `Correct` as the fixed
confirmation string, `Error` as the rendered diagnostic list, and
`FatalError e` as `"Fatal error: " ++ e`. -/
theorem string_rendering_cases (M : Modules) (p v : String)
    (tmpl : List String) :
    ((check_proof_to_proofresult M p v = ProofResult.Correct →
        check_proof M p v = "The proof is correct!" ∧
        check_proof_full M p v = "The proof is correct!") ∧
     (∀ errs, check_proof_to_proofresult M p v = ProofResult.Error errs →
        check_proof M p v = extract_errors errs ∧
        check_proof_full M p v = extract_errors_full errs) ∧
     (∀ e, check_proof_to_proofresult M p v = ProofResult.FatalError e →
        check_proof M p v = "Fatal error: " ++ e ∧
        check_proof_full M p v = "Fatal error: " ++ e)) ∧
    ((check_proof_to_proofresult_with_template M p tmpl v
        = ProofResult.Correct →
        check_proof_with_template M p tmpl v = "The proof is correct!") ∧
     (∀ errs, check_proof_to_proofresult_with_template M p tmpl v
        = ProofResult.Error errs →
        check_proof_with_template M p tmpl v = extract_errors errs) ∧
     (∀ e, check_proof_to_proofresult_with_template M p tmpl v
        = ProofResult.FatalError e →
        check_proof_with_template M p tmpl v = "Fatal error: " ++ e)) := by
  refine ⟨⟨fun h => ?_, fun errs h => ?_, fun e h => ?_⟩,
          fun h => ?_, fun errs h => ?_, fun e h => ?_⟩ <;>
    simp [check_proof, check_proof_full, check_proof_with_template, h]

/-- C8 witness. -/
theorem string_rendering_cases_witness :
    check_proof (testModules (.ok [sampleLine]) (.ok ["x"]) none) "p" "v"
      = "The proof is correct!" :=
  ((string_rendering_cases (testModules (.ok [sampleLine]) (.ok ["x"]) none)
      "p" "v" []).1.1 rfl).1

/-- C9: when the proof text does not parse, or parses to an empty line list,
`format_proof` and `fix_line_numbers_in_proof` return the input unchanged. -/
theorem format_and_fix_return_input_on_failure (M : Modules) (p : String) :
    (∀ e, M.parse_fitch_proof p = .error e →
      format_proof M p = p ∧ fix_line_numbers_in_proof M p = p) ∧
    (M.parse_fitch_proof p = .ok [] →
      format_proof M p = p ∧ fix_line_numbers_in_proof M p = p) := by
  refine ⟨fun e he => ?_, fun h => ?_⟩
  · constructor
    · simp [format_proof, he]
    · simp [fix_line_numbers_in_proof, he]
  · constructor
    · simp [format_proof, h]
    · simp [fix_line_numbers_in_proof, h]

/-- C9 witness. -/
theorem format_and_fix_return_input_on_failure_witness :
    format_proof (testModules (.error "bad") (.ok []) none) "p" = "p" :=
  ((format_and_fix_return_input_on_failure
      (testModules (.error "bad") (.ok []) none) "p").1 "bad" rfl).1

/-- C10: `export_to_latex` returns the fixed failure message exactly on the
parse-failure and empty-proof branches, and the LaTeX serialization of the
parsed lines otherwise. -/
theorem export_to_latex_cases (M : Modules) (p : String) :
    (∀ e, M.parse_fitch_proof p = .error e →
      export_to_latex M p = latex_failure_message) ∧
    (M.parse_fitch_proof p = .ok [] →
      export_to_latex M p = latex_failure_message) ∧
    (∀ l ls, M.parse_fitch_proof p = .ok (l :: ls) →
      export_to_latex M p = M.proof_to_latex (l :: ls)) := by
  refine ⟨fun e he => ?_, fun h => ?_, fun l ls h => ?_⟩
  · simp [export_to_latex, he]
  · simp [export_to_latex, h]
  · simp [export_to_latex, h]

/-- C10 witness. -/
theorem export_to_latex_cases_witness :
    export_to_latex (testModules (.error "bad") (.ok []) none) "p"
      = latex_failure_message :=
  (export_to_latex_cases (testModules (.error "bad") (.ok []) none) "p").1
    "bad" rfl

/-! ### Natural-sort lemmas for the rendering claims -/

theorem chunksOf_cons (c : Char) (cs : List Char) :
    chunksOf (c :: cs) = pushChar c (chunksOf cs) := rfl

theorem pushChar_space (l : List Chunk) :
    ∃ s t, pushChar ' ' l = Chunk.str (' ' :: s) :: t := by
  match l with
  | [] => exact ⟨[], [], rfl⟩
  | Chunk.str s :: rest => exact ⟨s, rest, rfl⟩
  | Chunk.num ds :: rest => exact ⟨[], Chunk.num ds :: rest, rfl⟩

theorem chunksOf_line2 (y : List Char) :
    ∃ s t,
      chunksOf ('L' :: 'i' :: 'n' :: 'e' :: ' ' :: '2' :: ':' :: ' ' :: y)
        = Chunk.str ['L', 'i', 'n', 'e', ' '] :: Chunk.num ['2']
          :: Chunk.str (':' :: ' ' :: s) :: t := by
  obtain ⟨s, t, h⟩ := pushChar_space (chunksOf y)
  refine ⟨s, t, ?_⟩
  simp only [chunksOf_cons, h]
  rfl

theorem chunksOf_line10 (y : List Char) :
    ∃ s t,
      chunksOf
          ('L' :: 'i' :: 'n' :: 'e' :: ' ' :: '1' :: '0' :: ':' :: ' ' :: y)
        = Chunk.str ['L', 'i', 'n', 'e', ' '] :: Chunk.num ['1', '0']
          :: Chunk.str (':' :: ' ' :: s) :: t := by
  obtain ⟨s, t, h⟩ := pushChar_space (chunksOf y)
  refine ⟨s, t, ?_⟩
  simp only [chunksOf_cons, h]
  rfl

theorem cmp_line2_lt_line10 (ya yb : List Char) :
    cmpChunks
        (chunksOf
          ('L' :: 'i' :: 'n' :: 'e' :: ' ' :: '2' :: ':' :: ' ' :: ya))
        (chunksOf
          ('L' :: 'i' :: 'n' :: 'e' :: ' ' :: '1' :: '0' :: ':' :: ' '
            :: yb))
      = Ordering.lt := by
  obtain ⟨s, t, h⟩ := chunksOf_line2 ya
  obtain ⟨s2, t2, h2⟩ := chunksOf_line10 yb
  rw [h, h2]
  rfl

theorem cmp_line10_gt_line2 (ya yb : List Char) :
    cmpChunks
        (chunksOf
          ('L' :: 'i' :: 'n' :: 'e' :: ' ' :: '1' :: '0' :: ':' :: ' '
            :: ya))
        (chunksOf
          ('L' :: 'i' :: 'n' :: 'e' :: ' ' :: '2' :: ':' :: ' ' :: yb))
      = Ordering.gt := by
  obtain ⟨s, t, h⟩ := chunksOf_line10 ya
  obtain ⟨s2, t2, h2⟩ := chunksOf_line2 yb
  rw [h, h2]
  rfl

theorem naturalLe_line2_line10 (sa sb : String) :
    naturalLe ("Line 2: " ++ sa) ("Line 10: " ++ sb) = true := by
  have h : naturalCompare ("Line 2: " ++ sa) ("Line 10: " ++ sb)
      = Ordering.lt := cmp_line2_lt_line10 sa.data sb.data
  unfold naturalLe
  rw [h]

theorem naturalLe_line10_line2 (sa sb : String) :
    naturalLe ("Line 10: " ++ sa) ("Line 2: " ++ sb) = false := by
  have h : naturalCompare ("Line 10: " ++ sa) ("Line 2: " ++ sb)
      = Ordering.gt := cmp_line10_gt_line2 sa.data sb.data
  unfold naturalLe
  rw [h]

theorem natural_sort_line_pair (sa sb : String) :
    natural_sort ["Line 10: " ++ sa, "Line 2: " ++ sb]
      = ["Line 2: " ++ sb, "Line 10: " ++ sa] := by
  have h := naturalLe_line10_line2 sa sb
  simp [natural_sort, insertNatural, h]

theorem natural_sort_line_pair_sorted (sa sb : String) :
    natural_sort ["Line 2: " ++ sb, "Line 10: " ++ sa]
      = ["Line 2: " ++ sb, "Line 10: " ++ sa] := by
  have h := naturalLe_line2_line10 sb sa
  simp [natural_sort, insertNatural, h]

/-! ### Spec-side definitions for the rendering refinement -/

/-- Modelled from the spec (refinement side): each entry is formatted as
`err_txt` when there is no Fitch line, and as `Line <fitch_line>: <err_txt>`
when there is one. -/
def spec_render_entry (e : CheckError) : String :=
  match e.fitch_line with
  | none => e.err_txt
  | some n => "Line " ++ toString n ++ ": " ++ e.err_txt

/-- Modelled from the spec (refinement side): the verbose variant formats an
entry with a Fitch line as `Line <real_line>: (Fitch line <fitch_line>)
<err_txt>`, and one without as `err_txt`. -/
def spec_render_entry_full (e : CheckError) : String :=
  match e.fitch_line with
  | none => e.err_txt
  | some n =>
    "Line " ++ toString e.real_line ++ ": (Fitch line " ++ toString n
      ++ ") " ++ e.err_txt

/-- C4: the error renderers format entries exactly as the spec describes,
natural-sort the formatted entries, and join them with exactly one blank
line (the separator `"\n\n"`) between consecutive entries. -/
theorem error_rendering_follows_spec (errs : List CheckError) :
    (∀ e, render_entry e = spec_render_entry e) ∧
    (∀ e, render_entry_full e = spec_render_entry_full e) ∧
    extract_errors errs
      = join_with "\n\n" (natural_sort (errs.map spec_render_entry)) ∧
    extract_errors_full errs
      = join_with "\n\n" (natural_sort (errs.map spec_render_entry_full)) ∧
    (∀ x y ys, join_with "\n\n" (x :: y :: ys)
      = x ++ "\n\n" ++ join_with "\n\n" (y :: ys)) :=
  ⟨fun _ => rfl, fun _ => rfl, rfl, rfl, fun _ _ _ => rfl⟩

/-- C5: diagnostics whose rendered texts begin `Line 2: ` and `Line 10: `
are ordered numerically by both renderers: the `Line 2` message comes first
in the joined output, whichever order the diagnostics arrive in. -/
theorem line2_precedes_line10 (e10 e2 : CheckError) (a b : String)
    (h10 : render_entry e10 = "Line 10: " ++ a)
    (h2 : render_entry e2 = "Line 2: " ++ b)
    (g10 : render_entry_full e10 = "Line 10: " ++ a)
    (g2 : render_entry_full e2 = "Line 2: " ++ b) :
    extract_errors [e10, e2]
      = ("Line 2: " ++ b) ++ "\n\n" ++ ("Line 10: " ++ a) ∧
    extract_errors [e2, e10]
      = ("Line 2: " ++ b) ++ "\n\n" ++ ("Line 10: " ++ a) ∧
    extract_errors_full [e10, e2]
      = ("Line 2: " ++ b) ++ "\n\n" ++ ("Line 10: " ++ a) ∧
    extract_errors_full [e2, e10]
      = ("Line 2: " ++ b) ++ "\n\n" ++ ("Line 10: " ++ a) := by
  refine ⟨?_, ?_, ?_, ?_⟩
  · rw [extract_errors]
    simp only [List.map_cons, List.map_nil, h10, h2]
    rw [natural_sort_line_pair a b]
    simp [join_with]
  · rw [extract_errors]
    simp only [List.map_cons, List.map_nil, h10, h2]
    rw [natural_sort_line_pair_sorted a b]
    simp [join_with]
  · rw [extract_errors_full]
    simp only [List.map_cons, List.map_nil, g10, g2]
    rw [natural_sort_line_pair a b]
    simp [join_with]
  · rw [extract_errors_full]
    simp only [List.map_cons, List.map_nil, g10, g2]
    rw [natural_sort_line_pair_sorted a b]
    simp [join_with]

/-- C5 witness. -/
theorem line2_precedes_line10_witness :
    extract_errors
        [{ real_line := 0, fitch_line := none, err_txt := "Line 10: u" },
         { real_line := 0, fitch_line := none, err_txt := "Line 2: v" }]
      = ("Line 2: " ++ "v") ++ "\n\n" ++ ("Line 10: " ++ "u") :=
  (line2_precedes_line10
      { real_line := 0, fitch_line := none, err_txt := "Line 10: u" }
      { real_line := 0, fitch_line := none, err_txt := "Line 2: v" }
      "u" "v" rfl rfl rfl rfl).1

end FitchProof
